import Mathlib

/-!
# Verification of the AWU signup form payment workflow

A shallow embedding of the membership-signup component
(`Signup` in the signup element source, together with its
`SpliceableUrlSearchParams` helper class), and proofs of the
documented properties of the payload splicer, the payment
tokenization adapter and the submission controller.

`URLSearchParams` / `FormData` objects are modelled as ordered lists of
name/value pairs.  Mutation of those objects is modelled by an explicit
object store (`Store`): each live `URLSearchParams` object is a slot of
the store, and constructors such as `new URLSearchParams(x)` allocate a
fresh slot holding a copy of the entries of `x`, exactly as in the source.
-/

namespace Awu

/-- Entries of a `URLSearchParams` / `FormData` object: an ordered list of
name/value pairs (names may repeat). -/
abbrev Params := List (String × String)

/-- `URLSearchParams.get(name)`: the value of the first entry with the
given name, or `null` (here `none`) when there is none. -/
def paramsGet : Params → String → Option String
  | [], _ => none
  | (k, v) :: rest, f => if k = f then some v else paramsGet rest f

/-- `URLSearchParams.delete(name)`: remove every entry with the given
name. -/
def paramsDelete : Params → String → Params
  | [], _ => []
  | (k, v) :: rest, f =>
    if k = f then paramsDelete rest f else (k, v) :: paramsDelete rest f

/-- `URLSearchParams.set(name, value)` (and `FormData.set`): replace the
first entry with the given name and drop the other entries with that
name; append a new entry when the name is absent. -/
def paramsSet : Params → String → String → Params
  | [], f, v => [(f, v)]
  | (k, w) :: rest, f, v =>
    if k = f then (f, v) :: paramsDelete rest f
    else (k, w) :: paramsSet rest f v

/-- `URLSearchParams.has(name)`. -/
def paramsHas (p : Params) (f : String) : Bool :=
  (paramsGet p f).isSome

/-! ## Object store

A tiny heap: `URLSearchParams` objects are numbered slots holding their
current entry list.  `alloc` models `new URLSearchParams(...)`, `update`
models an in-place mutation of one object. -/

/-- Reference to a `URLSearchParams` object in the store. -/
abbrev Ref := Nat

/-- The store of live `URLSearchParams` objects. -/
structure Store where
  objs : List Params
deriving Repr, DecidableEq

/-- The empty store. -/
def Store.empty : Store := ⟨[]⟩

/-- Read the current entries of an object. -/
def Store.deref (st : Store) (r : Ref) : Params :=
  st.objs.getD r []

/-- `new URLSearchParams(p)`: allocate a fresh object holding `p`. -/
def Store.alloc (st : Store) (p : Params) : Store × Ref :=
  (⟨st.objs ++ [p]⟩, st.objs.length)

/-- Mutate the object at `r` to hold `p`. -/
def Store.update (st : Store) (r : Ref) (p : Params) : Store :=
  ⟨st.objs.set r p⟩

/-- Mutating call `r.set(f, v)` on the object at `r`. -/
def Store.refSet (st : Store) (r : Ref) (f v : String) : Store :=
  st.update r (paramsSet (st.deref r) f v)

/-! ## SpliceableUrlSearchParams

Embedding of the source class:

```
class SpliceableUrlSearchParams {
  private readonly original: URLSearchParams;
  private readonly remainder: URLSearchParams;
  constructor(original) {
    this.original = new URLSearchParams(original);
    this.remainder = new URLSearchParams(this.original);
  }
  get(field) { return this.original.get(field); }
  splice(field) { this.remainder.delete(field); return this.get(field); }
  getRemainder() { return new URLSearchParams(this.remainder); }
}
```
-/

/-- The two private `URLSearchParams` objects of a
`SpliceableUrlSearchParams` instance. -/
structure SpliceableUrlSearchParams where
  original : Ref
  remainder : Ref
deriving Repr, DecidableEq

namespace SpliceableUrlSearchParams

/-- The constructor: copies the input into `original`, then copies
`original` into `remainder`. -/
def make (st : Store) (input : Params) :
    Store × SpliceableUrlSearchParams :=
  let a := st.alloc input
  let b := a.1.alloc (a.1.deref a.2)
  (b.1, ⟨a.2, b.2⟩)

/-- `get(field)`: reads the `original` object, never `remainder`. -/
def get (st : Store) (s : SpliceableUrlSearchParams) (f : String) :
    Option String :=
  paramsGet (st.deref s.original) f

/-- `splice(field)`: deletes the field from the `remainder` object and
returns `this.get(field)` (read from `original`). -/
def splice (st : Store) (s : SpliceableUrlSearchParams) (f : String) :
    Store × Option String :=
  (st.update s.remainder (paramsDelete (st.deref s.remainder) f),
   get st s f)

/-- `getRemainder()`: allocates a fresh copy of the `remainder` object. -/
def getRemainder (st : Store) (s : SpliceableUrlSearchParams) :
    Store × Ref :=
  st.alloc (st.deref s.remainder)

/-- Run a sequence of `splice` calls, discarding the returned values. -/
def spliceAll (st : Store) (s : SpliceableUrlSearchParams) :
    List String → Store
  | [] => st
  | f :: rest => spliceAll (splice st s f).1 s rest

end SpliceableUrlSearchParams

/-! ## Signup component: payment data model -/

/-- The `paymentMethod` internal property:
`bank | card | plaid`. -/
inductive PaymentMethod where
  | bank
  | card
  | plaid
deriving Repr, DecidableEq

/-- The `PlaidToken` interface: stored as `this.plaidToken` after a
successful Plaid link. -/
structure PlaidToken where
  public_token : String
  account_name : String
  account_id : String
deriving Repr, DecidableEq

/-- One account entry of the Plaid link success metadata. -/
structure PlaidAccount where
  name : String
  id : String
deriving Repr, DecidableEq

/-- The `PlaidMetadata` interface delivered to the Plaid `onSuccess`
callback. -/
structure PlaidMetadata where
  institutionName : String
  accounts : List PlaidAccount
deriving Repr, DecidableEq

/-- The `onSuccess` callback of `openPlaid`: builds `this.plaidToken`
from the public token and the first account of the metadata.  Reading
`metadata.accounts[0]` of an empty list would crash in JS, modelled as
`none`. -/
def onPlaidSuccess (public_token : String) (metadata : PlaidMetadata) :
    Option PlaidToken :=
  match metadata.accounts with
  | [] => none
  | a :: _ =>
    some { public_token := public_token
           account_name := metadata.institutionName ++ " " ++ a.name
           account_id := a.id }

/-- A Stripe tokenization error: `result.error.param` and
`result.error.message`.  A missing `param` is modelled as `""` (the
`switch` then falls through to `default`, as it would for any unknown
string). -/
structure StripeError where
  param : String
  message : String
deriving Repr, DecidableEq

/-- Outcome of a `stripe.createToken(...)` call: either a token (its
`id`) or an error. -/
inductive StripeResult where
  | token (id : String)
  | error (e : StripeError)
deriving Repr, DecidableEq

/-- Outcome of the final `fetch(window.SIGNUP_API, ...)` call:
`result.ok`, or a structured failure body `{ error: { param?, message } }`.
A missing or empty `param` is modelled as `""`, matching the JS
truthiness test `if (error.param)`. -/
inductive FetchResult where
  | ok
  | fail (param : String) (message : String)
deriving Repr, DecidableEq

/-! ## Tokenization strategies

`cardToken` / `bankAccountToken` splice the payment fields out of the
`SpliceableUrlSearchParams`, call `stripe.createToken`, and on failure
map the error parameter back onto a form field via `setInvalid`.
The outcome of the external `createToken` call is an input
(`StripeResult`).  Effects are returned explicitly: the updated store,
the list of `setInvalid(field, message)` calls made, and either
`.ok (tokenId, remainderRef)` or `.error message` for the rejected
promise (`Promise.reject(message)`; the message is the empty string when the
error was mapped onto a field). -/

/-- The `switch (result.error.param)` of `cardToken`: which form field a
known card error parameter is mapped onto. -/
def cardParamField (param : String) : Option String :=
  match param with
  | "card[name]" => some "card-holder-name"
  | "card[address_line1]" => some "billing-address-1"
  | "card[address_line2]" => some "billing-address-2"
  | "card[address_city]" => some "billing-city"
  | "card[address_zip]" => some "billing-zip"
  | "card[address_country]" => some "billing-country"
  | "currency" => some "currency"
  | _ => none

/-- The `switch (result.error.param)` of `bankAccountToken`. -/
def bankParamField (param : String) : Option String :=
  match param with
  | "bank_account[country]" => some "billing-country"
  | "bank_account[currency]" => some "currency"
  | "bank_account[routing_number]" => some "routing-number"
  | "bank_account[account_number]" => some "account-number"
  | "bank_account[account_holder_name]" => some "account-holder-name"
  | _ => none

/-- The fields `cardToken` splices out of the payload before calling
`stripe.createToken` (in source order; the
`currency` field is only read with `get`, not spliced). -/
def cardSplicedFields : List String :=
  ["card-holder-name", "billing-address-1", "billing-address-2",
   "billing-city", "billing-state", "billing-zip", "billing-country"]

/-- The fields `bankAccountToken` splices out of the payload before
calling `stripe.createToken` with the bank_account kind (`currency` is only
read with `get`). -/
def bankSplicedFields : List String :=
  ["billing-country", "routing-number", "account-number",
   "account-holder-name"]

/-- Result of a tokenization strategy: updated store, `setInvalid`
calls made, and the settled promise (`.ok (token.id, remainder)` or
`.error rejectedMessage`). -/
structure TokenAttempt where
  store : Store
  invalidated : List (String × String)
  result : Except String (String × Ref)

/-- Shared tail of `cardToken` / `bankAccountToken`: splice the
fields of the strategy, then either return `[result.token, data.getRemainder()]`
or map the error parameter through the `switch` of the strategy. -/
def strategyToken (paramField : String → Option String)
    (spliced : List String) (st : Store)
    (data : SpliceableUrlSearchParams) (res : StripeResult) :
    TokenAttempt :=
  let st1 := SpliceableUrlSearchParams.spliceAll st data spliced
  match res with
  | .token id =>
    let r := SpliceableUrlSearchParams.getRemainder st1 data
    { store := r.1, invalidated := [], result := .ok (id, r.2) }
  | .error e =>
    match paramField e.param with
    | some field =>
      { store := st1, invalidated := [(field, e.message)],
        result := .error "" }
    | none =>
      { store := st1, invalidated := [], result := .error e.message }

/-- `Signup.cardToken`. -/
def cardToken (st : Store) (data : SpliceableUrlSearchParams)
    (res : StripeResult) : TokenAttempt :=
  strategyToken cardParamField cardSplicedFields st data res

/-- `Signup.bankAccountToken`. -/
def bankAccountToken (st : Store) (data : SpliceableUrlSearchParams)
    (res : StripeResult) : TokenAttempt :=
  strategyToken bankParamField bankSplicedFields st data res

/-! ## Submission controller (`Signup.submit`) -/

/-- Observable outcome of one `submit` call: the `setInvalid` calls
made, the body POSTed to `window.SIGNUP_API` (if the fetch was
reached), which tokenization strategies were invoked, the `alert`
calls, and the final `isComplete` / `isLoading` state. -/
structure SubmitOutcome where
  invalidated : List (String × String)
  posted : Option Params
  strategyCalls : List PaymentMethod
  alerts : List String
  isComplete : Bool
  isLoading : Bool
deriving Repr, DecidableEq

/-- Steps 3–4 of `submit`: POST the body, then either set
`isComplete` or handle the structured error.  `throw false` (field
error) is falsy and so is not alerted in the `catch`; `throw
error.message` is alerted only when the message is truthy
(non-empty). -/
def finishFetch (body : Params) (fetchRes : FetchResult)
    (invalidated : List (String × String))
    (strategyCalls : List PaymentMethod) : SubmitOutcome :=
  match fetchRes with
  | .ok =>
    { invalidated := invalidated, posted := some body,
      strategyCalls := strategyCalls, alerts := [],
      isComplete := true, isLoading := true }
  | .fail param message =>
    if param = "" then
      { invalidated := invalidated, posted := some body,
        strategyCalls := strategyCalls,
        alerts := if message = "" then [] else [message],
        isComplete := false, isLoading := true }
    else
      { invalidated := invalidated ++ [(param, message)],
        posted := some body, strategyCalls := strategyCalls,
        alerts := [], isComplete := false, isLoading := true }

/-- The `try` block of `submit` (after `isLoading = true` and the
construction of `fields`), with the `catch` applied, but before the
`finally`; `isLoading` is still `true` in every branch here. -/
def submitTry (st : Store) (fields : SpliceableUrlSearchParams)
    (plaidToken : Option PlaidToken) (method : PaymentMethod)
    (stripeRes : StripeResult) (fetchRes : FetchResult) :
    SubmitOutcome :=
  match plaidToken with
  | some tok =>
    let r := SpliceableUrlSearchParams.getRemainder st fields
    let st1 := r.1.refSet r.2 "plaid-public-token" tok.public_token
    let st2 := st1.refSet r.2 "plaid-account-id" tok.account_id
    finishFetch (st2.deref r.2) fetchRes [] []
  | none =>
    let attempt :=
      if method = .bank then bankAccountToken st fields stripeRes
      else cardToken st fields stripeRes
    let calls := [if method = .bank then PaymentMethod.bank
                  else PaymentMethod.card]
    match attempt.result with
    | .ok (tokenId, bodyRef) =>
      let st1 := attempt.store.refSet bodyRef "stripe-payment-token"
        tokenId
      finishFetch (st1.deref bodyRef) fetchRes attempt.invalidated calls
    | .error msg =>
      { invalidated := attempt.invalidated, posted := none,
        strategyCalls := calls,
        alerts := if msg = "" then [] else [msg],
        isComplete := false, isLoading := true }

/-- `Signup.submit`, as a function of the form payload (the entries of
`new FormData(this.form)`), the stored Plaid token, the active payment
method, and the outcomes of the external Stripe and fetch calls.  The
`finally` clause clears `isLoading` on every path. -/
def submit (payload : Params) (plaidToken : Option PlaidToken)
    (method : PaymentMethod) (stripeRes : StripeResult)
    (fetchRes : FetchResult) : SubmitOutcome :=
  let f := SpliceableUrlSearchParams.make Store.empty payload
  let o := submitTry f.1 f.2 plaidToken method stripeRes fetchRes
  { o with isLoading := false }

/-! ## Rendered payment fields (for the form payload)

`render` emits the shared fields and then
`this.plaidToken ? connectedPlaidTemplate() : paymentTemplate()`;
`paymentTemplate` renders only the template of the active method
(`paymentMethodTemplate`).  Hence `new FormData(this.form)` contains a
payment-specific input only when its template is currently rendered. -/

/-- Names of the payment-specific inputs of `cardTemplate`. -/
def cardTemplateFields : List String :=
  ["card-holder-name", "billing-address-1", "billing-address-2",
   "billing-city", "billing-state", "billing-zip", "billing-country"]

/-- Names of the payment-specific inputs of `bankTemplate`. -/
def bankTemplateFields : List String :=
  ["routing-number", "account-number", "account-holder-name",
   "billing-country"]

/-- The payment-specific input names present in the rendered form:
none when a Plaid token is connected (`connectedPlaidTemplate` has no
inputs), else those of the template of the active method (`plaidTemplate`
has only a button). -/
def renderedPaymentFields (plaidToken : Option PlaidToken)
    (method : PaymentMethod) : List String :=
  match plaidToken with
  | some _ => []
  | none =>
    match method with
    | .bank => bankTemplateFields
    | .card => cardTemplateFields
    | .plaid => []

/-! ## Dues formatting (`Signup.formattedDues`) -/

/-- `Signup.formattedDues`.  The input models
`Number(this.totalCompensation?.value)`: `none` is `NaN`, `some c` a
finite numeric value.  The source computes
a dollar sign followed by `Math.floor(Math.floor(comp) / 100 / 12)`
when `comp` is not `NaN`, and the literal `$0` otherwise. -/
def formattedDues (comp : Option ℚ) : String :=
  match comp with
  | none => "$0"
  | some c => "$" ++ toString (⌊(⌊c⌋ : ℚ) / 100 / 12⌋)

/-! ## Derived runs of the splicer

Abbreviations for a freshly constructed `SpliceableUrlSearchParams`
after a sequence of `splice` calls, and the values it then reports. -/

/-- The store and splicer obtained by constructing a
`SpliceableUrlSearchParams` over `p` in an empty store and splicing the
fields of `l` in order. -/
def splicerAfter (p : Params) (l : List String) :
    Store × SpliceableUrlSearchParams :=
  let f := SpliceableUrlSearchParams.make Store.empty p
  (SpliceableUrlSearchParams.spliceAll f.1 f.2 l, f.2)

/-- The entries of the object returned by `getRemainder()` after
splicing the fields of `l`. -/
def remainderAfter (p : Params) (l : List String) : Params :=
  let a := splicerAfter p l
  let r := SpliceableUrlSearchParams.getRemainder a.1 a.2
  r.1.deref r.2

/-- The value of `get(g)` after splicing the fields of `l`. -/
def getAfter (p : Params) (l : List String) (g : String) :
    Option String :=
  let a := splicerAfter p l
  SpliceableUrlSearchParams.get a.1 a.2 g

/-! ## Lemmas about the pure parameter-list operations -/

theorem paramsGet_paramsDelete (p : Params) (g f : String) :
    paramsGet (paramsDelete p g) f =
      if f = g then none else paramsGet p f := by
  induction p with
  | nil => simp [paramsDelete, paramsGet]
  | cons kv rest ih =>
    obtain ⟨k, v⟩ := kv
    by_cases hfg : f = g
    · subst hfg
      by_cases hkf : k = f <;> simp [paramsDelete, paramsGet, hkf, ih]
    · have hgf : ¬g = f := fun h => hfg h.symm
      by_cases hkg : k = g
      · simp [paramsDelete, paramsGet, hkg, hfg, hgf, ih]
      · by_cases hkf : k = f <;>
          simp [paramsDelete, paramsGet, hkg, hkf, hfg, hgf, ih]

theorem paramsGet_paramsSet (p : Params) (g f v : String) :
    paramsGet (paramsSet p g v) f =
      if f = g then some v else paramsGet p f := by
  induction p with
  | nil =>
    by_cases hfg : f = g
    · simp [paramsSet, paramsGet, hfg]
    · have hgf : ¬g = f := fun h => hfg h.symm
      simp [paramsSet, paramsGet, hfg, hgf]
  | cons kv rest ih =>
    obtain ⟨k, w⟩ := kv
    by_cases hfg : f = g
    · subst hfg
      by_cases hkf : k = f <;> simp [paramsSet, paramsGet, hkf, ih]
    · have hgf : ¬g = f := fun h => hfg h.symm
      by_cases hkg : k = g
      · simp [paramsSet, paramsGet, hkg, hfg, hgf,
          paramsGet_paramsDelete]
      · by_cases hkf : k = f <;>
          simp [paramsSet, paramsGet, hkg, hkf, hfg, hgf, ih]

theorem paramsHas_paramsDelete (p : Params) (g f : String) :
    paramsHas (paramsDelete p g) f =
      if f = g then false else paramsHas p f := by
  by_cases h : f = g <;> simp [paramsHas, paramsGet_paramsDelete, h]

theorem paramsHas_paramsSet (p : Params) (g f v : String) :
    paramsHas (paramsSet p g v) f =
      if f = g then true else paramsHas p f := by
  by_cases h : f = g <;> simp [paramsHas, paramsGet_paramsSet, h]

theorem paramsDelete_paramsDelete (p : Params) (g : String) :
    paramsDelete (paramsDelete p g) g = paramsDelete p g := by
  induction p with
  | nil => simp [paramsDelete]
  | cons kv rest ih =>
    obtain ⟨k, v⟩ := kv
    by_cases hkg : k = g <;> simp [paramsDelete, hkg, ih]

theorem paramsGet_foldl_paramsDelete (l : List String) (p : Params)
    (f : String) :
    paramsGet (l.foldl paramsDelete p) f =
      if f ∈ l then none else paramsGet p f := by
  induction l generalizing p with
  | nil => simp
  | cons g rest ih =>
    by_cases hf : f = g
    · subst hf
      simp [ih, paramsGet_paramsDelete]
    · simp [ih, paramsGet_paramsDelete, hf]

theorem paramsHas_foldl_paramsDelete (l : List String) (p : Params)
    (f : String) :
    paramsHas (l.foldl paramsDelete p) f =
      if f ∈ l then false else paramsHas p f := by
  by_cases h : f ∈ l <;>
    simp [paramsHas, paramsGet_foldl_paramsDelete, h]

/-! ## Shape of the store along a splicer run

A splicer constructed in the empty store always lives in a store of the
form `⟨[p, q]⟩` with `original = 0` and `remainder = 1`; splicing only
rewrites slot 1. -/

theorem make_empty_eq (p : Params) :
    SpliceableUrlSearchParams.make Store.empty p =
      (⟨[p, p]⟩, ⟨0, 1⟩) := rfl

theorem splice_pair (p q : Params) (f : String) :
    SpliceableUrlSearchParams.splice ⟨[p, q]⟩ ⟨0, 1⟩ f =
      (⟨[p, paramsDelete q f]⟩, paramsGet p f) := rfl

theorem spliceAll_pair (p q : Params) (l : List String) :
    SpliceableUrlSearchParams.spliceAll ⟨[p, q]⟩ ⟨0, 1⟩ l =
      ⟨[p, l.foldl paramsDelete q]⟩ := by
  induction l generalizing q with
  | nil => rfl
  | cons f rest ih =>
    simpa [SpliceableUrlSearchParams.spliceAll, splice_pair] using
      ih (paramsDelete q f)

theorem splicerAfter_eq (p : Params) (l : List String) :
    splicerAfter p l = (⟨[p, l.foldl paramsDelete p]⟩, ⟨0, 1⟩) := by
  simpa [splicerAfter, make_empty_eq] using spliceAll_pair p p l

theorem remainderAfter_eq (p : Params) (l : List String) :
    remainderAfter p l = l.foldl paramsDelete p := by
  simp [remainderAfter, splicerAfter_eq,
    SpliceableUrlSearchParams.getRemainder, Store.deref, Store.alloc]

theorem getAfter_eq (p : Params) (l : List String) (g : String) :
    getAfter p l g = paramsGet p g := by
  simp [getAfter, splicerAfter_eq, SpliceableUrlSearchParams.get,
    Store.deref]

/-! ## Characterizations of the tokenization strategies and of submit -/

theorem strategyToken_pair_token (pf : String → Option String)
    (sp : List String) (p q : Params) (id : String) :
    strategyToken pf sp ⟨[p, q]⟩ ⟨0, 1⟩ (.token id) =
      { store := ⟨[p, sp.foldl paramsDelete q, sp.foldl paramsDelete q]⟩,
        invalidated := [], result := .ok (id, 2) } := by
  simp only [strategyToken, spliceAll_pair]
  rfl

theorem strategyToken_pair_error (pf : String → Option String)
    (sp : List String) (p q : Params) (e : StripeError) :
    strategyToken pf sp ⟨[p, q]⟩ ⟨0, 1⟩ (.error e) =
      { store := ⟨[p, sp.foldl paramsDelete q]⟩,
        invalidated :=
          match pf e.param with
          | some field => [(field, e.message)]
          | none => [],
        result := .error
          (match pf e.param with
           | some _ => ""
           | none => e.message) } := by
  cases hm : pf e.param <;> simp only [strategyToken, spliceAll_pair, hm]

/-- With a stored Plaid token, `submit` skips tokenization and posts
the remainder (a copy of the payload) with the two Plaid fields set. -/
theorem submit_plaid_eq (payload : Params) (tok : PlaidToken)
    (method : PaymentMethod) (stripeRes : StripeResult)
    (fetchRes : FetchResult) :
    submit payload (some tok) method stripeRes fetchRes =
      { finishFetch
          (paramsSet (paramsSet payload "plaid-public-token"
            tok.public_token) "plaid-account-id" tok.account_id)
          fetchRes [] []
        with isLoading := false } := rfl

/-- Without a Plaid token and with a successful tokenization, `submit`
posts the spliced remainder with `stripe-payment-token` set. -/
theorem submit_none_token_eq (payload : Params)
    (method : PaymentMethod) (id : String) (fetchRes : FetchResult) :
    submit payload none method (.token id) fetchRes =
      { finishFetch
          (paramsSet
            ((if method = .bank then bankSplicedFields
              else cardSplicedFields).foldl paramsDelete payload)
            "stripe-payment-token" id)
          fetchRes []
          [if method = .bank then PaymentMethod.bank
           else PaymentMethod.card]
        with isLoading := false } := by
  cases method <;>
    simp only [submit, submitTry, cardToken, bankAccountToken,
      make_empty_eq, strategyToken_pair_token] <;> rfl

/-- Without a Plaid token and with a failed tokenization, `submit`
aborts before the POST: at most one field is invalidated (through the
parameter map of the active strategy), and only an unmapped parameter
with a non-empty message is alerted. -/
theorem submit_none_error_eq (payload : Params)
    (method : PaymentMethod) (e : StripeError)
    (fetchRes : FetchResult) :
    submit payload none method (.error e) fetchRes =
      { invalidated :=
          match (if method = .bank then bankParamField
                 else cardParamField) e.param with
          | some field => [(field, e.message)]
          | none => [],
        posted := none,
        strategyCalls :=
          [if method = .bank then PaymentMethod.bank
           else PaymentMethod.card],
        alerts :=
          match (if method = .bank then bankParamField
                 else cardParamField) e.param with
          | some _ => []
          | none => if e.message = "" then [] else [e.message],
        isComplete := false, isLoading := false } := by
  cases method with
  | bank =>
    cases hm : bankParamField e.param <;>
      simp [submit, submitTry, bankAccountToken, make_empty_eq,
        strategyToken_pair_error, hm]
  | card =>
    cases hm : cardParamField e.param <;>
      simp [submit, submitTry, cardToken, make_empty_eq,
        strategyToken_pair_error, hm]
  | plaid =>
    cases hm : cardParamField e.param <;>
      simp [submit, submitTry, cardToken, make_empty_eq,
        strategyToken_pair_error, hm]

theorem finishFetch_posted (b : Params) (fr : FetchResult)
    (inv : List (String × String)) (calls : List PaymentMethod) :
    (finishFetch b fr inv calls).posted = some b := by
  cases fr with
  | ok => rfl
  | fail pm msg => by_cases h : pm = "" <;> simp [finishFetch, h]

theorem finishFetch_strategyCalls (b : Params) (fr : FetchResult)
    (inv : List (String × String)) (calls : List PaymentMethod) :
    (finishFetch b fr inv calls).strategyCalls = calls := by
  cases fr with
  | ok => rfl
  | fail pm msg => by_cases h : pm = "" <;> simp [finishFetch, h]

theorem finishFetch_isComplete (b : Params) (fr : FetchResult)
    (inv : List (String × String)) (calls : List PaymentMethod) :
    ((finishFetch b fr inv calls).isComplete = true) ↔ fr = .ok := by
  cases fr with
  | ok => simp [finishFetch]
  | fail pm msg => by_cases h : pm = "" <;> simp [finishFetch, h]

/-- Membership of a field in a posted body of the non-Plaid branch. -/
theorem paramsHas_body_stripe (payload : Params) (sp : List String)
    (id f : String) :
    paramsHas (paramsSet (sp.foldl paramsDelete payload)
        "stripe-payment-token" id) f =
      if f = "stripe-payment-token" then true
      else if f ∈ sp then false
      else paramsHas payload f := by
  by_cases h1 : f = "stripe-payment-token" <;>
    by_cases h2 : f ∈ sp <;>
    simp [paramsHas, paramsGet_paramsSet,
      paramsGet_foldl_paramsDelete, h1, h2]

/-- Membership of a field in a posted body of the Plaid branch. -/
theorem paramsHas_body_plaid (payload : Params) (tok : PlaidToken)
    (f : String) :
    paramsHas (paramsSet (paramsSet payload "plaid-public-token"
        tok.public_token) "plaid-account-id" tok.account_id) f =
      if f = "plaid-account-id" then true
      else if f = "plaid-public-token" then true
      else paramsHas payload f := by
  by_cases h1 : f = "plaid-account-id" <;>
    by_cases h2 : f = "plaid-public-token" <;>
    simp [paramsHas, paramsGet_paramsSet, h1, h2]

/-! ## The claims -/

/-- Claim C1: for every payload and distinct fields A and B, splicing A
then B and calling `getRemainder()` yields a mapping holding every
original field except A and B with unchanged values (and neither A nor
B); and no sequence of `splice` calls changes the value of `get(g)` for
any field, because `get` reads the untouched `original` copy. -/
theorem splice_two_fields_remainder_spec (p : Params) (A B : String)
    (hAB : A ≠ B) :
    (∀ g, g ≠ A → g ≠ B →
       paramsGet (remainderAfter p [A, B]) g = paramsGet p g) ∧
    paramsGet (remainderAfter p [A, B]) A = none ∧
    paramsGet (remainderAfter p [A, B]) B = none ∧
    (∀ l g, getAfter p l g = paramsGet p g) := by
  refine ⟨?_, ?_, ?_, fun l g => getAfter_eq p l g⟩
  · intro g hgA hgB
    simp [remainderAfter_eq, paramsGet_paramsDelete, hgA, hgB]
  · simp [remainderAfter_eq, paramsGet_paramsDelete, hAB]
  · simp [remainderAfter_eq, paramsGet_paramsDelete]

/-- Witness for C1 at a concrete payload. -/
theorem splice_two_fields_remainder_spec_witness :
    paramsGet
        (remainderAfter [("a", "1"), ("b", "2"), ("c", "3")] ["a", "b"])
        "c" = some "3" ∧
    paramsGet
        (remainderAfter [("a", "1"), ("b", "2"), ("c", "3")] ["a", "b"])
        "a" = none ∧
    getAfter [("a", "1"), ("b", "2"), ("c", "3")] ["a", "b"] "a" =
      some "1" := by
  obtain ⟨h1, h2, _, h4⟩ :=
    splice_two_fields_remainder_spec
      [("a", "1"), ("b", "2"), ("c", "3")] "a" "b" (by decide)
  exact ⟨h1 "c" (by decide) (by decide), h2,
    (h4 ["a", "b"] "a").trans (by decide)⟩

/-- Claim C5 counterexample: splicing the same present field twice does
NOT return null/empty on the second call; `splice` returns
`this.get(field)`, which reads the untouched `original` copy, so the
second call returns the original value again. -/
theorem splice_twice_second_value_counterexample :
    (SpliceableUrlSearchParams.splice (splicerAfter [("a", "x")] ["a"]).1
        (splicerAfter [("a", "x")] ["a"]).2 "a").2 = some "x" ∧
    (some "x" ≠ (none : Option String)) := by
  constructor
  · decide
  · decide

/-- Claim C5 (amended): splicing the same field twice is idempotent on
the splicer state: the second `splice(F)` leaves the store unchanged
(so `getRemainder()` is identical whether `splice(F)` ran once or
twice), and returns the original value of the field — the same value
the first call returned — rather than null/empty. -/
theorem splice_twice_idempotent_amended (p : Params) (F : String) :
    SpliceableUrlSearchParams.splice (splicerAfter p [F]).1
        (splicerAfter p [F]).2 F =
      ((splicerAfter p [F]).1, paramsGet p F) ∧
    remainderAfter p [F, F] = remainderAfter p [F] := by
  constructor
  · simp [splicerAfter_eq, splice_pair, paramsDelete_paramsDelete]
  · simp [remainderAfter_eq, paramsDelete_paramsDelete]

/-- Claim C10: `getRemainder()` returns a fresh defensive copy — after
mutating the returned object with `set` (as the submission controller
does with the token fields), every `get`, the internal `remainder`
object, and any subsequent `getRemainder()` are unchanged. -/
theorem getRemainder_defensive_copy (p : Params) (l : List String)
    (k v : String) :
    (let a := splicerAfter p l
     let r := SpliceableUrlSearchParams.getRemainder a.1 a.2
     let st := (r.1).refSet r.2 k v
     (∀ g, SpliceableUrlSearchParams.get st a.2 g =
        SpliceableUrlSearchParams.get a.1 a.2 g) ∧
     st.deref a.2.remainder = (a.1).deref a.2.remainder ∧
     (let r2 := SpliceableUrlSearchParams.getRemainder st a.2
      (r2.1).deref r2.2 = (r.1).deref r.2)) := by
  simp only [splicerAfter_eq]
  exact ⟨fun g => rfl, rfl, rfl⟩

/-- Claim C7: the displayed monthly dues are
`floor(floor(total-compensation) / 100 / 12)` with a dollar sign:
250000 formats as `$208`, 0 as `$0`, and a non-numeric compensation
(`NaN`) as `$0`. -/
theorem formattedDues_spec :
    formattedDues (some 250000) = "$208" ∧
    formattedDues (some 0) = "$0" ∧
    formattedDues none = "$0" := by
  refine ⟨?_, ?_, rfl⟩ <;> norm_num [formattedDues] <;> rfl

/-- Claim C2: when a tokenization failure reports a parameter in the
known set of the active strategy, exactly the one corresponding form
field is invalidated with the processor message, and the submission
aborts with no POST and no generic alert; an unknown parameter
invalidates no field and propagates the (non-empty) processor message
as a generic error.  The final two conjuncts pin down the known
parameter sets of the two switches. -/
theorem tokenization_error_field_mapping (payload : Params)
    (e : StripeError) (method : PaymentMethod)
    (fetchRes : FetchResult) :
    (let pf := if method = .bank then bankParamField
               else cardParamField
     let o := submit payload none method (.error e) fetchRes
     (∀ field, pf e.param = some field →
        o.invalidated = [(field, e.message)] ∧ o.posted = none ∧
        o.alerts = []) ∧
     (pf e.param = none →
        o.invalidated = [] ∧ o.posted = none ∧
        (e.message ≠ "" → o.alerts = [e.message]))) ∧
    (∀ param, ((cardParamField param).isSome = true ↔
       param ∈ ["card[name]", "card[address_line1]",
         "card[address_line2]", "card[address_city]",
         "card[address_zip]", "card[address_country]", "currency"])) ∧
    (∀ param, ((bankParamField param).isSome = true ↔
       param ∈ ["bank_account[country]", "bank_account[currency]",
         "bank_account[routing_number]", "bank_account[account_number]",
         "bank_account[account_holder_name]"])) := by
  refine ⟨⟨?_, ?_⟩, ?_, ?_⟩
  · intro field hm
    simp [submit_none_error_eq, hm]
  · intro hm
    refine ⟨by simp [submit_none_error_eq, hm],
      by simp [submit_none_error_eq, hm], fun hmsg => ?_⟩
    simp [submit_none_error_eq, hm, hmsg]
  · intro param
    unfold cardParamField
    split <;> simp_all
  · intro param
    unfold bankParamField
    split <;> simp_all

/-- Witness for C2: a `card[address_zip]` failure invalidates exactly
the billing-zip field, makes no POST and raises no alert. -/
theorem tokenization_error_field_mapping_witness :
    (submit [("x", "1")] none .card
        (.error ⟨"card[address_zip]", "bad zip"⟩) .ok).invalidated =
      [("billing-zip", "bad zip")] ∧
    (submit [("x", "1")] none .card
        (.error ⟨"card[address_zip]", "bad zip"⟩) .ok).posted = none ∧
    (submit [("x", "1")] none .card
        (.error ⟨"card[address_zip]", "bad zip"⟩) .ok).alerts = [] :=
  (tokenization_error_field_mapping [("x", "1")]
    ⟨"card[address_zip]", "bad zip"⟩ .card .ok).1.1
    "billing-zip" (by decide)

/-- Claim C3: a successful Plaid link builds the stored token from the
public token and the first account of the metadata (display name is
the institution name, a space, and the account name); any submission
with a stored Plaid token never invokes the card or bank tokenization
strategy and posts the stored public token and account id directly. -/
theorem plaid_link_token_and_bypass (public_token : String)
    (metadata : PlaidMetadata) (a : PlaidAccount)
    (rest : List PlaidAccount) (hacc : metadata.accounts = a :: rest)
    (tok : PlaidToken)
    (htok : onPlaidSuccess public_token metadata = some tok)
    (payload : Params) (method : PaymentMethod)
    (stripeRes : StripeResult) (fetchRes : FetchResult) :
    tok = { public_token := public_token,
            account_name :=
              metadata.institutionName ++ " " ++ a.name,
            account_id := a.id } ∧
    (submit payload (some tok) method stripeRes
        fetchRes).strategyCalls = [] ∧
    (∀ b, (submit payload (some tok) method stripeRes
        fetchRes).posted = some b →
      paramsGet b "plaid-public-token" = some tok.public_token ∧
      paramsGet b "plaid-account-id" = some tok.account_id) := by
  refine ⟨?_, ?_, ?_⟩
  · simp [onPlaidSuccess, hacc] at htok
    exact htok.symm
  · simp [submit_plaid_eq, finishFetch_strategyCalls]
  · intro b hb
    rw [submit_plaid_eq] at hb
    simp only [finishFetch_posted, Option.some.injEq] at hb
    subst hb
    constructor <;> simp [paramsGet_paramsSet]

/-- Witness for C3 at a concrete link result and submission. -/
theorem plaid_link_token_and_bypass_witness :
    (⟨"pub", "Chase Checking", "acc1"⟩ : PlaidToken) =
      { public_token := "pub", account_name := "Chase" ++ " " ++ "Checking",
        account_id := "acc1" } ∧
    (submit [("x", "1")] (some ⟨"pub", "Chase Checking", "acc1"⟩)
        .plaid (.token "t") .ok).strategyCalls = [] ∧
    paramsGet [("x", "1"), ("plaid-public-token", "pub"),
        ("plaid-account-id", "acc1")] "plaid-public-token" =
      some "pub" ∧
    paramsGet [("x", "1"), ("plaid-public-token", "pub"),
        ("plaid-account-id", "acc1")] "plaid-account-id" =
      some "acc1" := by
  obtain ⟨h1, h2, h3⟩ :=
    plaid_link_token_and_bypass "pub"
      ⟨"Chase", [⟨"Checking", "acc1"⟩]⟩ ⟨"Checking", "acc1"⟩ []
      rfl ⟨"pub", "Chase Checking", "acc1"⟩ (by decide)
      [("x", "1")] .plaid (.token "t") .ok
  obtain ⟨h4, h5⟩ :=
    h3 [("x", "1"), ("plaid-public-token", "pub"),
        ("plaid-account-id", "acc1")] (by decide)
  exact ⟨h1, h2, h4, h5⟩

/-- Claim C4: every body that reaches the POST contains exactly one of
the two token forms — `stripe-payment-token` alone when no Plaid token
is stored, or the `plaid-public-token` / `plaid-account-id` pair when
one is — assuming the form payload itself holds none of the three
reserved token fields (the rendered form has no inputs with those
names). -/
theorem posted_body_token_form (payload : Params)
    (plaidToken : Option PlaidToken) (method : PaymentMethod)
    (stripeRes : StripeResult) (fetchRes : FetchResult)
    (h1 : paramsHas payload "stripe-payment-token" = false)
    (h2 : paramsHas payload "plaid-public-token" = false)
    (h3 : paramsHas payload "plaid-account-id" = false) :
    ∀ b, (submit payload plaidToken method stripeRes
        fetchRes).posted = some b →
      (plaidToken = none →
        paramsHas b "stripe-payment-token" = true ∧
        paramsHas b "plaid-public-token" = false ∧
        paramsHas b "plaid-account-id" = false) ∧
      (∀ t, plaidToken = some t →
        paramsHas b "stripe-payment-token" = false ∧
        paramsHas b "plaid-public-token" = true ∧
        paramsHas b "plaid-account-id" = true) := by
  intro b hb
  cases plaidToken with
  | some tok =>
    rw [submit_plaid_eq] at hb
    simp only [finishFetch_posted, Option.some.injEq] at hb
    subst hb
    constructor
    · intro h
      cases h
    · intro t ht
      refine ⟨?_, ?_, ?_⟩ <;> simp [paramsHas_body_plaid, h1]
  | none =>
    cases stripeRes with
    | token id =>
      rw [submit_none_token_eq] at hb
      simp only [finishFetch_posted, Option.some.injEq] at hb
      subst hb
      constructor
      · intro _
        refine ⟨?_, ?_, ?_⟩ <;>
          cases method <;>
          simp [paramsHas_paramsSet, paramsHas_paramsDelete,
            bankSplicedFields, cardSplicedFields, h1, h2, h3]
      · intro t ht
        cases ht
    | error e =>
      rw [submit_none_error_eq] at hb
      cases hb

/-- Witness for C4: a card submission posts a body with the Stripe
token field and neither Plaid field. -/
theorem posted_body_token_form_witness :
    paramsHas [("x", "1"), ("stripe-payment-token", "tok")]
        "stripe-payment-token" = true ∧
    paramsHas [("x", "1"), ("stripe-payment-token", "tok")]
        "plaid-public-token" = false ∧
    paramsHas [("x", "1"), ("stripe-payment-token", "tok")]
        "plaid-account-id" = false :=
  (posted_body_token_form [("x", "1")] none .card (.token "tok") .ok
      (by decide) (by decide) (by decide)
      [("x", "1"), ("stripe-payment-token", "tok")] (by decide)).1 rfl

/-- A payload field appearing in neither rendered payment template can
only be in the form payload if it is a non-payment field; a payment
field that is not rendered is absent from the payload. -/
theorem paramsHas_payload_false_of_not_rendered (payload : Params)
    (plaidToken : Option PlaidToken) (method : PaymentMethod)
    (f : String)
    (hdom : ∀ g, (g ∈ cardTemplateFields ∨ g ∈ bankTemplateFields) →
       paramsHas payload g = true →
       g ∈ renderedPaymentFields plaidToken method)
    (hf : f ∈ cardTemplateFields ∨ f ∈ bankTemplateFields)
    (hnr : f ∉ renderedPaymentFields plaidToken method) :
    paramsHas payload f = false := by
  cases hpay : paramsHas payload f
  · rfl
  · exact absurd (hdom f hf hpay) hnr

/-- Claim C6: the POSTed body never contains a field belonging to a
payment method other than the active one: with method plaid or bank no
card-template field appears, and with method card or plaid no
bank-template field appears — given that a payment-specific input can
occur in the form payload only when its template is rendered
(`renderedPaymentFields`). -/
theorem posted_body_excludes_inactive_fields (payload : Params)
    (plaidToken : Option PlaidToken) (method : PaymentMethod)
    (stripeRes : StripeResult) (fetchRes : FetchResult)
    (hdom : ∀ g, (g ∈ cardTemplateFields ∨ g ∈ bankTemplateFields) →
       paramsHas payload g = true →
       g ∈ renderedPaymentFields plaidToken method) :
    ∀ b, (submit payload plaidToken method stripeRes
        fetchRes).posted = some b →
      ((method = .plaid ∨ method = .bank) →
        ∀ f ∈ cardTemplateFields, paramsHas b f = false) ∧
      ((method = .card ∨ method = .plaid) →
        ∀ f ∈ bankTemplateFields, paramsHas b f = false) := by
  intro b hb
  cases plaidToken with
  | some tok =>
    rw [submit_plaid_eq] at hb
    simp only [finishFetch_posted, Option.some.injEq] at hb
    subst hb
    refine ⟨fun _ f hf => ?_, fun _ f hf => ?_⟩
    · have ne1 : f ≠ "plaid-account-id" :=
        (by decide :
          ∀ g ∈ cardTemplateFields, g ≠ "plaid-account-id") f hf
      have ne2 : f ≠ "plaid-public-token" :=
        (by decide :
          ∀ g ∈ cardTemplateFields, g ≠ "plaid-public-token") f hf
      rw [paramsHas_paramsSet, if_neg ne1, paramsHas_paramsSet,
        if_neg ne2]
      exact paramsHas_payload_false_of_not_rendered payload
        (some tok) method f hdom (Or.inl hf) (List.not_mem_nil f)
    · have ne1 : f ≠ "plaid-account-id" :=
        (by decide :
          ∀ g ∈ bankTemplateFields, g ≠ "plaid-account-id") f hf
      have ne2 : f ≠ "plaid-public-token" :=
        (by decide :
          ∀ g ∈ bankTemplateFields, g ≠ "plaid-public-token") f hf
      rw [paramsHas_paramsSet, if_neg ne1, paramsHas_paramsSet,
        if_neg ne2]
      exact paramsHas_payload_false_of_not_rendered payload
        (some tok) method f hdom (Or.inr hf) (List.not_mem_nil f)
  | none =>
    cases stripeRes with
    | error e =>
      rw [submit_none_error_eq] at hb
      cases hb
    | token id =>
      rw [submit_none_token_eq] at hb
      simp only [finishFetch_posted, Option.some.injEq] at hb
      subst hb
      constructor
      · rintro (rfl | rfl) f hf
        · -- method = plaid: card fields are neither rendered nor kept
          have ne1 : f ≠ "stripe-payment-token" :=
            (by decide :
              ∀ g ∈ cardTemplateFields,
                g ≠ "stripe-payment-token") f hf
          rw [paramsHas_paramsSet, if_neg ne1,
            paramsHas_foldl_paramsDelete,
            if_neg (by decide :
              ¬(PaymentMethod.plaid = PaymentMethod.bank))]
          rw [if_pos ((by decide :
            ∀ g ∈ cardTemplateFields, g ∈ cardSplicedFields) f hf)]
        · -- method = bank
          have ne1 : f ≠ "stripe-payment-token" :=
            (by decide :
              ∀ g ∈ cardTemplateFields,
                g ≠ "stripe-payment-token") f hf
          rw [paramsHas_paramsSet, if_neg ne1,
            paramsHas_foldl_paramsDelete,
            if_pos (rfl : PaymentMethod.bank = PaymentMethod.bank)]
          by_cases h2 : f ∈ bankSplicedFields
          · rw [if_pos h2]
          · rw [if_neg h2]
            exact paramsHas_payload_false_of_not_rendered payload
              none .bank f hdom (Or.inl hf)
              (fun hmem => h2 ((by decide :
                ∀ g ∈ bankTemplateFields,
                  g ∈ bankSplicedFields) f hmem))
      · rintro (rfl | rfl) f hf
        · -- method = card
          have ne1 : f ≠ "stripe-payment-token" :=
            (by decide :
              ∀ g ∈ bankTemplateFields,
                g ≠ "stripe-payment-token") f hf
          rw [paramsHas_paramsSet, if_neg ne1,
            paramsHas_foldl_paramsDelete,
            if_neg (by decide :
              ¬(PaymentMethod.card = PaymentMethod.bank))]
          by_cases h2 : f ∈ cardSplicedFields
          · rw [if_pos h2]
          · rw [if_neg h2]
            exact paramsHas_payload_false_of_not_rendered payload
              none .card f hdom (Or.inr hf)
              (fun hmem => h2 ((by decide :
                ∀ g ∈ cardTemplateFields,
                  g ∈ cardSplicedFields) f hmem))
        · -- method = plaid
          have ne1 : f ≠ "stripe-payment-token" :=
            (by decide :
              ∀ g ∈ bankTemplateFields,
                g ≠ "stripe-payment-token") f hf
          rw [paramsHas_paramsSet, if_neg ne1,
            paramsHas_foldl_paramsDelete,
            if_neg (by decide :
              ¬(PaymentMethod.plaid = PaymentMethod.bank))]
          by_cases h2 : f ∈ cardSplicedFields
          · rw [if_pos h2]
          · rw [if_neg h2]
            exact paramsHas_payload_false_of_not_rendered payload
              none .plaid f hdom (Or.inr hf) (List.not_mem_nil f)

/-- Witness for C6: with the bank method active and a card-holder-name
value absent from the rendered form, the posted body holds no
card-holder-name and no routing-number once spliced. -/
theorem posted_body_excludes_inactive_fields_witness :
    paramsHas [("x", "1"), ("stripe-payment-token", "tok")]
        "card-holder-name" = false ∧
    paramsHas [("x", "1"), ("stripe-payment-token", "tok")]
        "billing-zip" = false := by
  have h :=
    posted_body_excludes_inactive_fields
      [("x", "1")] none .bank (.token "tok") .ok
      (fun g hg hhas => ?_)
      [("x", "1"), ("stripe-payment-token", "tok")] (by decide)
  · exact ⟨h.1 (Or.inr rfl) "card-holder-name" (by decide),
      h.1 (Or.inr rfl) "billing-zip" (by decide)⟩
  · by_cases hx : "x" = g
    · subst hx
      rcases hg with hg | hg <;> exact absurd hg (by decide)
    · simp [paramsHas, paramsGet, hx] at hhas

/-- Terminal-state behaviour of the shared fetch tail. -/
theorem finishFetch_terminal (b : Params) (fr : FetchResult)
    (calls : List PaymentMethod) :
    (let o : SubmitOutcome :=
      { finishFetch b fr [] calls with isLoading := false }
     (o.isComplete = true ↔ (o.posted ≠ none ∧ fr = .ok)) ∧
     (∀ param message, fr = .fail param message →
        o.posted ≠ none →
        o.isComplete = false ∧
        (param ≠ "" → o.invalidated = [(param, message)] ∧
          o.alerts = []) ∧
        (param = "" → message ≠ "" → o.alerts = [message]))) := by
  cases fr with
  | ok =>
    refine ⟨by simp [finishFetch], ?_⟩
    intro param message hfr
    cases hfr
  | fail pm msg =>
    by_cases hpm : pm = ""
    · refine ⟨by simp [finishFetch, hpm], ?_⟩
      intro param message hfr _
      cases hfr
      refine ⟨by simp [finishFetch, hpm], fun hne => absurd hpm hne,
        fun _ hmsg => ?_⟩
      simp [finishFetch, hpm, hmsg]
    · refine ⟨by simp [finishFetch, hpm], ?_⟩
      intro param message hfr _
      cases hfr
      refine ⟨by simp [finishFetch, hpm], fun _ => ?_,
        fun heq => absurd heq hpm⟩
      simp [finishFetch, hpm]

/-- Claim C9: per submission attempt the terminal UI states are
mutually exclusive — `isComplete` becomes true exactly when the POST
happened and returned ok; on an HTTP failure the component is not
complete, a failure naming a field parameter invalidates exactly that
field with no alert, and a failure without one surfaces its (truthy)
message as an alert. -/
theorem submit_terminal_states (payload : Params)
    (plaidToken : Option PlaidToken) (method : PaymentMethod)
    (stripeRes : StripeResult) (fetchRes : FetchResult) :
    (let o := submit payload plaidToken method stripeRes fetchRes
     (o.isComplete = true ↔ (o.posted ≠ none ∧ fetchRes = .ok)) ∧
     (∀ param message, fetchRes = .fail param message →
        o.posted ≠ none →
        o.isComplete = false ∧
        (param ≠ "" → o.invalidated = [(param, message)] ∧
          o.alerts = []) ∧
        (param = "" → message ≠ "" → o.alerts = [message]))) := by
  cases plaidToken with
  | some tok =>
    simp only [submit_plaid_eq]
    exact finishFetch_terminal _ fetchRes _
  | none =>
    cases stripeRes with
    | token id =>
      simp only [submit_none_token_eq]
      exact finishFetch_terminal _ fetchRes _
    | error e =>
      simp only [submit_none_error_eq]
      exact ⟨by simp, fun param message hfr hposted =>
        absurd rfl hposted⟩

/-- Witness for C9: a failed POST naming the signature field leaves
the form incomplete, invalidates exactly that field and alerts
nothing. -/
theorem submit_terminal_states_witness :
    (submit [("x", "1")] none .card (.token "t")
        (.fail "signature" "required")).isComplete = false ∧
    (submit [("x", "1")] none .card (.token "t")
        (.fail "signature" "required")).invalidated =
      [("signature", "required")] ∧
    (submit [("x", "1")] none .card (.token "t")
        (.fail "signature" "required")).alerts = [] := by
  obtain ⟨h1, h2⟩ :=
    (submit_terminal_states [("x", "1")] none .card (.token "t")
      (.fail "signature" "required")).2 "signature" "required" rfl
      (by decide)
  exact ⟨h1, h2.1 (by decide)⟩

/-- Claim C8: every path through `submit` — plaid bypass, card or bank
tokenization, success or failure, field-scoped or generic error —
leaves `isLoading` false when the attempt finishes, because the
`finally` clause clears it. -/
theorem submit_clears_isLoading (payload : Params)
    (plaidToken : Option PlaidToken) (method : PaymentMethod)
    (stripeRes : StripeResult) (fetchRes : FetchResult) :
    (submit payload plaidToken method stripeRes fetchRes).isLoading =
      false := rfl

end Awu
